import Mathlib

/-!
Shallow embedding of the bot lifecycle core of the repository
(src/model/bot.py) and of the Telemetry Provider HTTP client
(src/utilities/api/morg_http_client.py), together with proofs of the
claims about them.

Conventions of the embedding:
  * Controller notifications, log operations and worker-thread operations
    are recorded as an ordered event trace (the Python calls
    controller.clear_log, controller.update_log, controller.update_progress,
    controller.update_status, BotThread construction, thread.setDaemon and
    thread.start, thread.stop, thread.join happen synchronously in source
    order, so a list of events is a faithful rendering of the observable
    behaviour of one call).
  * Python float progress values are modelled as rationals; the clamping
    comparisons in update_progress are exact on the inputs involved.
  * The game-client window initialisation (win.focus / win.initialize) is
    external to the repository; it is passed to play as an oracle value:
    none for success, some msg for a WindowInitializationError whose
    str() is msg.
  * The platform thread-interruption primitive
    ctypes.pythonapi.PyThreadState_SetAsyncExc is external; its integer
    return value is passed to botThreadStop as an oracle.
  * HTTP responses of the sidecar are external; they are passed to the
    client functions as an oracle value of type HttpResult.
-/

namespace OSRSBot

/-- BotStatus enum from src/model/bot.py. -/
inductive BotStatus
  | RUNNING
  | PAUSED
  | STOPPED
  | CONFIGURING
  | CONFIGURED
  deriving DecidableEq, Repr

/-- Observable events of one Bot method call: controller notifications
(clear_log, update_log, update_progress, update_status) and worker-thread
operations (BotThread construction, thread.start, thread.stop call,
thread.join). statusNotify records the status value the controller
observes when controller.update_status is called. -/
inductive Event
  | clearLog
  | logMsg (msg : String) (overwrite : Bool)
  | progressNotify
  | statusNotify (s : BotStatus)
  | threadCreate
  | threadStart
  | threadForcedStopCall
  | threadJoin
  deriving DecidableEq, Repr

/-- The mutable fields of a Bot instance relevant to the lifecycle:
options_set, progress, status and whether self.thread is non-None
(class defaults: False, 0, STOPPED, None). -/
structure BotState where
  options_set : Bool
  progress : ℚ
  status : BotStatus
  thread : Bool
  deriving DecidableEq, Repr

/-- The class-attribute defaults of Bot: options_set = False, progress = 0,
status = BotStatus.STOPPED, thread = None. -/
def initState : BotState :=
  { options_set := false, progress := 0, status := BotStatus.STOPPED, thread := false }

/-- Bot.set_status: sets the status property and notifies the controller. -/
def set_status (b : BotState) (s : BotStatus) : BotState × List Event :=
  ({ b with status := s }, [Event.statusNotify s])

/-- Bot.reset_progress: sets progress to 0 and notifies the controller. -/
def reset_progress (b : BotState) : BotState × List Event :=
  ({ b with progress := 0 }, [Event.progressNotify])

/-- Bot.update_progress: clamps the argument to [0, 1] via the two
if-branches of the source, stores it, and notifies the controller once. -/
def update_progress (b : BotState) (p : ℚ) : BotState × List Event :=
  let p := if p < 0 then 0 else if p > 1 then 1 else p
  ({ b with progress := p }, [Event.progressNotify])

/-- Bot.play. The branch structure follows the source: if status is STOPPED,
clear the log and log "Starting bot...", then check options_set (log and
return if unset), then attempt window initialisation (on
WindowInitializationError log str(e) and return), then reset_progress,
set_status(RUNNING), construct the BotThread, and start it. If status is
RUNNING, only log "Bot is already running.". Any other status: nothing.
winInit is the external window-initialisation outcome. -/
def play (b : BotState) (winInit : Option String) : BotState × List Event :=
  if b.status = BotStatus.STOPPED then
    let ev0 : List Event := [Event.clearLog, Event.logMsg "Starting bot..." false]
    if b.options_set = false then
      (b, ev0 ++ [Event.logMsg "Options not set. Please set options before starting." false])
    else
      match winInit with
      | some e => (b, ev0 ++ [Event.logMsg e false])
      | none =>
        let r1 := reset_progress b
        let r2 := set_status r1.1 BotStatus.RUNNING
        ({ r2.1 with thread := true },
          ev0 ++ r1.2 ++ r2.2 ++ [Event.threadCreate, Event.threadStart])
  else if b.status = BotStatus.RUNNING then
    (b, [Event.logMsg "Bot is already running." false])
  else
    (b, [])

/-- Python runtime errors that the embedded code can raise. -/
inductive PyError
  | attributeErrorNoneType
  | valueError
  deriving DecidableEq, Repr

/-- Bot.stop: logs "Stopping script.", then if status is not STOPPED calls
self.thread.stop(), self.thread.join() and set_status(STOPPED); otherwise
logs "Bot is already stopped.". When self.thread is None (thread = false)
the attribute access self.thread.stop() raises AttributeError after the
first log message. Returns the events emitted before any raise, and either
the resulting state or the error. -/
def stop (b : BotState) : List Event × Except PyError BotState :=
  let ev0 : List Event := [Event.logMsg "Stopping script." false]
  if b.status ≠ BotStatus.STOPPED then
    if b.thread then
      let r := set_status b BotStatus.STOPPED
      (ev0 ++ [Event.threadForcedStopCall, Event.threadJoin] ++ r.2, Except.ok r.1)
    else
      (ev0, Except.error PyError.attributeErrorNoneType)
  else
    (ev0 ++ [Event.logMsg "Bot is already stopped." false], Except.ok b)

/-- Recognises controller log-message events (controller.update_log calls). -/
def isLog : Event → Bool
  | Event.logMsg _ _ => true
  | _ => false

/-- Recognises worker-thread operations among events. -/
def isThreadOp : Event → Bool
  | Event.threadCreate => true
  | Event.threadStart => true
  | Event.threadForcedStopCall => true
  | Event.threadJoin => true
  | _ => false

/-- The operating systems distinguished by platform.system() in
BotThread.stop: "Windows", "Linux", and anything else (e.g. "Darwin"),
which falls through both branches. -/
inductive OSPlatform
  | windows
  | linux
  | otherOS
  deriving DecidableEq, Repr

/-- Observable actions of BotThread.stop: calls to the platform primitive
PyThreadState_SetAsyncExc (raiseExc = true for delivering SystemExit,
raiseExc = false for the revoking call with exception 0), and console
prints. -/
inductive ThreadEvent
  | setAsyncExc (raiseExc : Bool)
  | printMsg (s : String)
  deriving DecidableEq, Repr

/-- BotThread.stop from src/model/bot.py. On Windows and on Linux it calls
PyThreadState_SetAsyncExc once to deliver SystemExit; res is the return
value of that call (an oracle: 1 on success, 0 when no thread matched the id,
greater than 1 when multiple matched). Only when res > 1 does it call the
primitive again with exception 0 (revoking the pending interruption) and
print "Exception raise failure". On any other platform it does nothing.
It is a total function: no exception propagates to the caller. -/
def botThreadStop (plat : OSPlatform) (res : ℕ) : List ThreadEvent :=
  match plat with
  | OSPlatform.windows =>
      if res > 1 then
        [ThreadEvent.setAsyncExc true, ThreadEvent.setAsyncExc false,
         ThreadEvent.printMsg "Exception raise failure"]
      else
        [ThreadEvent.setAsyncExc true]
  | OSPlatform.linux =>
      if res > 1 then
        [ThreadEvent.setAsyncExc true, ThreadEvent.setAsyncExc false,
         ThreadEvent.printMsg "Exception raise failure"]
      else
        [ThreadEvent.setAsyncExc true]
  | OSPlatform.otherOS => []

/-! ## Telemetry Provider HTTP client (morg_http_client.py) -/

/-- The outcome of requests.get against the sidecar, from the point of view
of MorgHTTPSocket.__do_get: either a ConnectionError, or a response with a
status code and (already parsed) JSON body. -/
inductive HttpResult (α : Type)
  | connectionFailure
  | response (status : ℕ) (body : α)
  deriving DecidableEq, Repr

/-- SocketError from morg_http_client.py: carries an error message and the
name of the failing endpoint. -/
structure SocketError where
  error_message : String
  endpoint : String
  deriving DecidableEq, Repr

/-- MorgHTTPSocket.__do_get: raises SocketError "Unable to reach socket" on
ConnectionError; for a response with status other than 200, raises a
SocketError whose message names the status (with a dedicated message for
204, the not-fully-logged-in case); for status 200 returns the parsed
JSON body. Every SocketError carries the endpoint name. -/
def do_get {α : Type} (endpoint : String) (resp : HttpResult α) :
    Except SocketError α :=
  match resp with
  | HttpResult.connectionFailure =>
      Except.error { error_message := "Unable to reach socket", endpoint := endpoint }
  | HttpResult.response status body =>
      if status ≠ 200 then
        if status = 204 then
          Except.error
            { error_message :=
                "Endpoint not available, make sure you are fully logged in, status code: "
                  ++ toString status,
              endpoint := endpoint }
        else
          Except.error
            { error_message := "Unable to reach socket, status code: " ++ toString status,
              endpoint := endpoint }
      else
        Except.ok body

/-- The fields of the events-endpoint JSON payload used by the getters
modelled here: "health" (a string such as "21/21") and "run energy". -/
structure EventsData where
  health : String
  runEnergy : Int
  deriving DecidableEq, Repr

/-- Python str.split("/") as used on the health string. -/
def pySplit (s : String) : List String := s.split (fun c => c = '/')

/-- MorgHTTPSocket.get_hitpoints: on SocketError prints it and returns None;
otherwise splits data["health"] on "/" into exactly two parts and converts
both to int, raising ValueError (modelled for both the unpacking failure
and the int() failure) when that is impossible. -/
def get_hitpoints (resp : HttpResult EventsData) :
    Except PyError (Option (Int × Int)) :=
  match do_get "events" resp with
  | Except.error _ => Except.ok none
  | Except.ok data =>
      match pySplit data.health with
      | [c, m] =>
          match c.toInt?, m.toInt? with
          | some ci, some mi => Except.ok (some (ci, mi))
          | _, _ => Except.error PyError.valueError
      | _ => Except.error PyError.valueError

/-- MorgHTTPSocket.get_run_energy: on SocketError prints it and returns
None; otherwise returns int(data["run energy"]). -/
def get_run_energy (resp : HttpResult EventsData) : Option Int :=
  match do_get "events" resp with
  | Except.error _ => none
  | Except.ok data => some data.runEnergy

/-- One entry of the stats-endpoint JSON payload: the "stat" name and the
integer values of its "level", "xp" and "xp gained" fields. -/
structure StatEntry where
  stat : String
  level : Int
  xp : Int
  xpGained : Int
  deriving DecidableEq, Repr

/-- Python str.lower() (ASCII case mapping, which covers every skill name):
lower-cases every character. -/
def pyLower (s : String) : String := String.mk (s.data.map Char.toLower)

/-- Python str.capitalize() (ASCII): upper-cases the first character and
lower-cases the rest. -/
def pyCapitalize (s : String) : String :=
  match s.data with
  | [] => ""
  | c :: rest => String.mk (Char.toUpper c :: rest.map Char.toLower)

/-- MorgHTTPSocket.get_skill_level: normalises the skill name with
skill.lower().capitalize(), fetches the stats endpoint (None on
SocketError), and returns int(i["level"]) of the first entry i of data[1:]
whose "stat" equals the normalised name; the StopIteration of an
unmatched name is caught and None is returned. -/
def get_skill_level (resp : HttpResult (List StatEntry)) (skill : String) :
    Option Int :=
  let skill := pyCapitalize (pyLower skill)
  match do_get "stats" resp with
  | Except.error _ => none
  | Except.ok data =>
      match (data.drop 1).find? (fun i => i.stat = skill) with
      | some e => some e.level
      | none => none

/-- MorgHTTPSocket.get_skill_xp: as get_skill_level but returns the "xp"
field of the first matching entry of data[1:]. -/
def get_skill_xp (resp : HttpResult (List StatEntry)) (skill : String) :
    Option Int :=
  let skill := pyCapitalize (pyLower skill)
  match do_get "stats" resp with
  | Except.error _ => none
  | Except.ok data =>
      match (data.drop 1).find? (fun i => i.stat = skill) with
      | some e => some e.xp
      | none => none

/-- MorgHTTPSocket.get_skill_xp_gained: as get_skill_level but returns the
"xp gained" field of the first matching entry of data[1:]. -/
def get_skill_xp_gained (resp : HttpResult (List StatEntry)) (skill : String) :
    Option Int :=
  let skill := pyCapitalize (pyLower skill)
  match do_get "stats" resp with
  | Except.error _ => none
  | Except.ok data =>
      match (data.drop 1).find? (fun i => i.stat = skill) with
      | some e => some e.xpGained
      | none => none

/-- A Bot state ready to start: options configured, stopped, no live
worker, some stale progress left from an earlier run. -/
def readyState : BotState :=
  { options_set := true, progress := 1/2, status := BotStatus.STOPPED, thread := false }

/-- A Bot state while the worker runs: options configured, status RUNNING,
live worker. -/
def runningState : BotState :=
  { options_set := true, progress := 1/4, status := BotStatus.RUNNING, thread := true }

/-! ## Theorems about the Bot lifecycle -/

/-- Claim C4: play() on a STOPPED Task with options_set = false clears the
log, logs "Starting bot..." and the options-not-set message, and does
nothing else: the state (status included) is unchanged, no Worker
Execution Unit is created or started, and the failure surfaces only as a
log message. -/
theorem C4_play_options_not_set (b : BotState) (winInit : Option String)
    (hs : b.status = BotStatus.STOPPED) (ho : b.options_set = false) :
    play b winInit =
      (b, [Event.clearLog, Event.logMsg "Starting bot..." false,
           Event.logMsg "Options not set. Please set options before starting." false]) := by
  simp [play, hs, ho]

/-- Witness for C4 at the initial state (options unset, stopped). -/
theorem C4_witness :
    play initState none =
      (initState, [Event.clearLog, Event.logMsg "Starting bot..." false,
           Event.logMsg "Options not set. Please set options before starting." false]) :=
  C4_play_options_not_set initState none rfl rfl

/-- Claim C5: play() on a RUNNING Task only logs "Bot is already running.":
the state is returned unchanged (same status, progress, worker), and no
thread-creation or thread-start event occurs, so no second Worker
Execution Unit can arise from a repeated play(). -/
theorem C5_play_while_running (b : BotState) (winInit : Option String)
    (hs : b.status = BotStatus.RUNNING) :
    play b winInit = (b, [Event.logMsg "Bot is already running." false]) := by
  simp [play, hs]

/-- Witness for C5 at a concrete running state. -/
theorem C5_witness :
    play runningState none =
      (runningState, [Event.logMsg "Bot is already running." false]) :=
  C5_play_while_running runningState none rfl

/-- Claim C6: update_progress stores the clamp of its argument to [0, 1]
and emits exactly one progress notification (and nothing else);
update_progress (-1/2) stores 0 and update_progress (17/10) stores 1;
reset_progress stores exactly 0 and emits exactly one progress
notification. -/
theorem C6_progress_clamped (b : BotState) (p : ℚ) :
    (update_progress b p).1.progress = max 0 (min 1 p) ∧
    (update_progress b p).2 = [Event.progressNotify] ∧
    (update_progress b (-1/2)).1.progress = 0 ∧
    (update_progress b (17/10)).1.progress = 1 ∧
    (reset_progress b).1.progress = 0 ∧
    (reset_progress b).2 = [Event.progressNotify] := by
  refine ⟨?_, rfl, by norm_num [update_progress], by norm_num [update_progress], rfl, rfl⟩
  simp only [update_progress]
  rcases lt_or_le p 0 with h | h
  · rw [if_pos h, min_eq_right (by linarith), max_eq_left (by linarith)]
  · rw [if_neg (not_lt.mpr h)]
    rcases lt_or_le 1 p with h1 | h1
    · rw [if_pos h1, min_eq_left (by linarith), max_eq_right (by linarith)]
    · rw [if_neg (not_lt.mpr h1), min_eq_right h1, max_eq_right h]

/-- Claim C9: play() on a STOPPED Task always begins its observable trace
with a log-clear followed by the "Starting bot..." message, before the
options guard and the window acquisition are evaluated; so even a failed
play() has already cleared the log and appended at least one message. -/
theorem C9_play_clears_log_first (b : BotState) (winInit : Option String)
    (hs : b.status = BotStatus.STOPPED) :
    ∃ rest, (play b winInit).2 =
      Event.clearLog :: Event.logMsg "Starting bot..." false :: rest := by
  simp only [play, hs, if_pos]
  rcases hop : b.options_set with _ | _
  · exact ⟨_, rfl⟩
  · cases winInit <;> exact ⟨_, rfl⟩

/-- Witness for C9 at a state where play() fails (options not set): the
trace still starts with the log-clear and the starting message. -/
theorem C9_witness :
    ∃ rest, (play initState none).2 =
      Event.clearLog :: Event.logMsg "Starting bot..." false :: rest :=
  C9_play_clears_log_first initState none rfl

/-- Counterexample to claim C3 as stated: stop() on an already-STOPPED Task
records two log messages ("Stopping script." and then "Bot is already
stopped."), not exactly one. -/
theorem C3_counterexample :
    (stop initState).1 =
      [Event.logMsg "Stopping script." false,
       Event.logMsg "Bot is already stopped." false] ∧
    ¬ ((stop initState).1.countP isLog = 1) := by
  refine ⟨rfl, by decide⟩

/-- Amended claim C3: stop() on a STOPPED Task attempts no worker
operations, leaves the state (and in particular the status) unchanged,
does not raise, and records exactly two log messages: "Stopping script."
followed by "Bot is already stopped.". -/
theorem C3_stop_already_stopped (b : BotState) (hs : b.status = BotStatus.STOPPED) :
    stop b = ([Event.logMsg "Stopping script." false,
               Event.logMsg "Bot is already stopped." false], Except.ok b) := by
  simp [stop, hs]

/-- Witness for the amended C3 at the initial state. -/
theorem C3_witness :
    stop initState = ([Event.logMsg "Stopping script." false,
               Event.logMsg "Bot is already stopped." false], Except.ok initState) :=
  C3_stop_already_stopped initState rfl

/-- Counterexample to claim C2 as stated: a Task moved to CONFIGURING by
set_status (as the configuration flow does) still has thread = None, and
stop() on it raises AttributeError at the worker dereference after the
first log message, instead of performing the stop sequence. -/
theorem C2_counterexample :
    (set_status initState BotStatus.CONFIGURING).1.status = BotStatus.CONFIGURING ∧
    (stop (set_status initState BotStatus.CONFIGURING).1).2 =
      Except.error PyError.attributeErrorNoneType := by
  exact ⟨rfl, rfl⟩

/-- Amended claim C2: for a Task whose status is RUNNING, CONFIGURING or
CONFIGURED and whose worker reference is non-None, stop() logs the
stopping message, issues the forced-stop request to the worker, joins it,
and then sets status to STOPPED, without raising; when the worker
reference is None (reachable in CONFIGURING/CONFIGURED, which set_status
enters without creating a worker), stop() instead raises AttributeError. -/
theorem C2_stop_with_worker (b : BotState)
    (hs : b.status = BotStatus.RUNNING ∨ b.status = BotStatus.CONFIGURING ∨
          b.status = BotStatus.CONFIGURED)
    (ht : b.thread = true) :
    stop b = ([Event.logMsg "Stopping script." false, Event.threadForcedStopCall,
               Event.threadJoin, Event.statusNotify BotStatus.STOPPED],
              Except.ok { b with status := BotStatus.STOPPED }) := by
  have hns : b.status ≠ BotStatus.STOPPED := by
    rcases hs with h | h | h <;> simp [h]
  simp [stop, hns, ht, set_status]

/-- Witness for the amended C2 at a concrete running state with a live
worker. -/
theorem C2_witness :
    stop runningState =
      ([Event.logMsg "Stopping script." false, Event.threadForcedStopCall,
        Event.threadJoin, Event.statusNotify BotStatus.STOPPED],
       Except.ok { runningState with status := BotStatus.STOPPED }) :=
  C2_stop_with_worker runningState (Or.inl rfl) rfl

/-- Counterexample to claim C1 as stated: on a successful play() from a
ready state, the controller status-changed notification carrying RUNNING
occurs strictly before the worker thread is started (the notification is
at index 3 of the trace, the thread start at index 5), so the transition
to RUNNING is observable before the worker has been started. -/
theorem C1_counterexample :
    Event.statusNotify BotStatus.RUNNING ∈ (play readyState none).2 ∧
    Event.threadStart ∈ (play readyState none).2 ∧
    (play readyState none).2.indexOf (Event.statusNotify BotStatus.RUNNING) <
      (play readyState none).2.indexOf Event.threadStart := by
  decide

/-- Amended claim C1: on every successful play() (STOPPED status, options
configured, window acquisition succeeding), the status change to RUNNING,
with its controller notification, happens strictly before the worker
thread is created and started: the trace is exactly log-clear, the
starting message, the progress-reset notification, the RUNNING
status notification, thread creation, thread start. -/
theorem C1_status_set_before_thread_start (b : BotState)
    (hs : b.status = BotStatus.STOPPED) (ho : b.options_set = true) :
    play b none =
      ({ b with progress := 0, status := BotStatus.RUNNING, thread := true },
       [Event.clearLog, Event.logMsg "Starting bot..." false, Event.progressNotify,
        Event.statusNotify BotStatus.RUNNING, Event.threadCreate, Event.threadStart]) := by
  simp [play, hs, ho, reset_progress, set_status]

/-- Witness for the amended C1 at the ready state. -/
theorem C1_witness :
    play readyState none =
      ({ readyState with progress := 0, status := BotStatus.RUNNING, thread := true },
       [Event.clearLog, Event.logMsg "Starting bot..." false, Event.progressNotify,
        Event.statusNotify BotStatus.RUNNING, Event.threadCreate, Event.threadStart]) :=
  C1_status_set_before_thread_start readyState rfl rfl

/-- Counterexample to claim C7 as stated: on a supported platform, when the
interruption primitive reports that zero threads matched (return value 0),
BotThread.stop neither logs the failure nor revokes anything: the trace is
just the single delivery attempt, with no "Exception raise failure" print
and no revoking call. -/
theorem C7_counterexample :
    botThreadStop OSPlatform.windows 0 = [ThreadEvent.setAsyncExc true] ∧
    ThreadEvent.printMsg "Exception raise failure" ∉ botThreadStop OSPlatform.windows 0 ∧
    ThreadEvent.setAsyncExc false ∉ botThreadStop OSPlatform.windows 0 := by
  decide

/-- Amended claim C7: on a supported platform (Windows or Linux), only a
primitive result indicating multiple matched threads (result > 1) makes
BotThread.stop log the failure and revoke the pending interruption; a
result of 0 or 1 leaves just the single delivery attempt, silently. In
every case the function is total — no exception propagates to the caller,
who may still proceed to join(). -/
theorem C7_forced_stop_failure_handling (plat : OSPlatform) (res : ℕ)
    (hp : plat = OSPlatform.windows ∨ plat = OSPlatform.linux) :
    (1 < res →
      botThreadStop plat res =
        [ThreadEvent.setAsyncExc true, ThreadEvent.setAsyncExc false,
         ThreadEvent.printMsg "Exception raise failure"]) ∧
    (res ≤ 1 → botThreadStop plat res = [ThreadEvent.setAsyncExc true]) := by
  rcases hp with h | h <;> subst h <;>
    exact ⟨fun hr => by simp [botThreadStop, hr],
           fun hr => by simp [botThreadStop, Nat.not_lt.mpr hr]⟩

/-- Witness for the amended C7: on Windows with a multiple-match result the
failure is logged and revoked. -/
theorem C7_witness :
    botThreadStop OSPlatform.windows 2 =
      [ThreadEvent.setAsyncExc true, ThreadEvent.setAsyncExc false,
       ThreadEvent.printMsg "Exception raise failure"] :=
  (C7_forced_stop_failure_handling OSPlatform.windows 2 (Or.inl rfl)).1 (by norm_num)

/-! ## Theorems about the Telemetry Provider client -/

/-- Strings whose first n characters differ are different strings. -/
lemma string_ne_of_take (s t : String) (n : ℕ)
    (h : s.data.take n ≠ t.data.take n) : s ≠ t :=
  fun he => h (by rw [he])

/-- The 204 error message differs from every other-status error message
(they disagree at the first character). -/
lemma msg204_ne_msgOther (st : ℕ) :
    "Endpoint not available, make sure you are fully logged in, status code: 204" ≠
      "Unable to reach socket, status code: " ++ toString st := by
  apply string_ne_of_take _ _ 1
  rw [String.data_append, List.take_append_of_le_length (by decide)]
  decide

/-- Every other-status error message differs from the connection-failure
message (the former is strictly longer). -/
lemma msgOther_ne_msgConn (st : ℕ) :
    "Unable to reach socket, status code: " ++ toString st ≠
      "Unable to reach socket" := by
  apply string_ne_of_take _ _ 23
  rw [String.data_append, List.take_append_of_le_length (by decide)]
  decide

/-- Requests whose outcome is not a 200 response make do_get fail with some
SocketError. -/
lemma do_get_error_of_ne {α : Type} (endpoint : String) (r : HttpResult α)
    (h : ∀ b : α, r ≠ HttpResult.response 200 b) :
    ∃ e, do_get endpoint r = Except.error e := by
  cases r with
  | connectionFailure => exact ⟨_, rfl⟩
  | response st b =>
      have hst : st ≠ 200 := fun hh => h b (by rw [hh])
      by_cases h4 : st = 204 <;> simp [do_get, hst, h4]

/-- Claim C8: a Telemetry Provider request returns the parsed JSON payload
exactly when the HTTP status is 200; a 204, any other non-200 status, and
a connection failure each produce a SocketError carrying the endpoint
name, with pairwise distinct messages for the three kinds; and the public
getters modelled here (get_hitpoints, get_run_energy, get_skill_level,
get_skill_xp, get_skill_xp_gained) convert any such error into a None
result instead of propagating it. -/
theorem C8_telemetry_errors {α : Type} (endpoint : String) (st : ℕ) (a : α)
    (resp : HttpResult EventsData) (resp2 : HttpResult (List StatEntry)) (sk : String)
    (h200 : st ≠ 200) (h204 : st ≠ 204)
    (hne : ∀ body : EventsData, resp ≠ HttpResult.response 200 body)
    (hne2 : ∀ body : List StatEntry, resp2 ≠ HttpResult.response 200 body) :
    (∀ r : HttpResult α, (∃ d, do_get endpoint r = Except.ok d) ↔
        ∃ body, r = HttpResult.response 200 body) ∧
    do_get endpoint (HttpResult.response 204 a) =
      Except.error
        { error_message :=
            "Endpoint not available, make sure you are fully logged in, status code: 204",
          endpoint := endpoint } ∧
    do_get endpoint (HttpResult.response st a) =
      Except.error
        { error_message := "Unable to reach socket, status code: " ++ toString st,
          endpoint := endpoint } ∧
    do_get endpoint (HttpResult.connectionFailure : HttpResult α) =
      Except.error { error_message := "Unable to reach socket", endpoint := endpoint } ∧
    ("Endpoint not available, make sure you are fully logged in, status code: 204" ≠
        "Unable to reach socket, status code: " ++ toString st) ∧
    ("Endpoint not available, make sure you are fully logged in, status code: 204" ≠
        "Unable to reach socket") ∧
    ("Unable to reach socket, status code: " ++ toString st ≠
        "Unable to reach socket") ∧
    get_hitpoints resp = Except.ok none ∧
    get_run_energy resp = none ∧
    get_skill_level resp2 sk = none ∧
    get_skill_xp resp2 sk = none ∧
    get_skill_xp_gained resp2 sk = none := by
  obtain ⟨e1, he1⟩ := do_get_error_of_ne "events" resp hne
  obtain ⟨e2, he2⟩ := do_get_error_of_ne "stats" resp2 hne2
  refine ⟨?_, rfl, by simp [do_get, h200, h204], rfl,
    msg204_ne_msgOther st, by decide, msgOther_ne_msgConn st,
    by simp [get_hitpoints, he1], by simp [get_run_energy, he1],
    by simp [get_skill_level, he2], by simp [get_skill_xp, he2],
    by simp [get_skill_xp_gained, he2]⟩
  intro r
  cases r with
  | connectionFailure => simp [do_get]
  | response s b =>
      by_cases hs : s = 200
      · subst hs; simp [do_get]
      · by_cases h4 : s = 204 <;> simp [do_get, hs, h4]

/-- Witness for C8: a connection failure makes get_hitpoints return None,
a 204 stats response makes get_skill_level return None, and a 500
response yields the endpoint-carrying status error. -/
theorem C8_witness :
    get_hitpoints HttpResult.connectionFailure = Except.ok none ∧
    get_skill_level (HttpResult.response 204 []) "attack" = none ∧
    do_get "inv" (HttpResult.response 500 (0 : ℕ)) =
      Except.error
        { error_message := "Unable to reach socket, status code: " ++ toString 500,
          endpoint := "inv" } := by
  have h := C8_telemetry_errors (α := ℕ) "inv" 500 0 HttpResult.connectionFailure
    (HttpResult.response 204 []) "attack" (by decide) (by decide)
    (fun b h => by cases h) (fun b h => by simp at h)
  exact ⟨h.2.2.2.2.2.2.2.1, h.2.2.2.2.2.2.2.2.2.1, h.2.2.1⟩

/-- Reduction of get_skill_level on a 200 response: the value is the
"level" field of the first entry of data[1:] whose "stat" equals the
normalised name. -/
lemma get_skill_level_response (l : List StatEntry) (s : String) :
    get_skill_level (HttpResult.response 200 l) s =
      ((l.drop 1).find? (fun i => i.stat = pyCapitalize (pyLower s))).map
        (fun e => e.level) := by
  simp only [get_skill_level, do_get, ne_eq, not_true_eq_false, if_false, reduceIte]
  cases hf : (l.drop 1).find? (fun i => i.stat = pyCapitalize (pyLower s)) <;> rfl

/-- Reduction of get_skill_xp on a 200 response. -/
lemma get_skill_xp_response (l : List StatEntry) (s : String) :
    get_skill_xp (HttpResult.response 200 l) s =
      ((l.drop 1).find? (fun i => i.stat = pyCapitalize (pyLower s))).map
        (fun e => e.xp) := by
  simp only [get_skill_xp, do_get, ne_eq, not_true_eq_false, if_false, reduceIte]
  cases hf : (l.drop 1).find? (fun i => i.stat = pyCapitalize (pyLower s)) <;> rfl

/-- Reduction of get_skill_xp_gained on a 200 response. -/
lemma get_skill_xp_gained_response (l : List StatEntry) (s : String) :
    get_skill_xp_gained (HttpResult.response 200 l) s =
      ((l.drop 1).find? (fun i => i.stat = pyCapitalize (pyLower s))).map
        (fun e => e.xpGained) := by
  simp only [get_skill_xp_gained, do_get, ne_eq, not_true_eq_false, if_false, reduceIte]
  cases hf : (l.drop 1).find? (fun i => i.stat = pyCapitalize (pyLower s)) <;> rfl

/-- find? returns the first element satisfying the predicate. -/
lemma find?_first {α : Type} (p : α → Bool) (pre : List α) (e : α) (post : List α)
    (he : p e = true) (hpre : ∀ x ∈ pre, p x = false) :
    (pre ++ e :: post).find? p = some e := by
  induction pre with
  | nil => simpa using List.find?_cons_of_pos post he
  | cons a t ih =>
      have ha : p a = false := hpre a (List.mem_cons_self a t)
      rw [List.cons_append, List.find?_cons_of_neg _ (by simp [ha])]
      exact ih fun x hx => hpre x (List.mem_cons_of_mem a hx)

/-- Claim C10: the skill getters normalise the skill name with
lower-then-capitalize, ignore the first entry of the stats payload,
return the integer field of the first later entry whose "stat" equals the
normalised name, and return None (without raising) when no entry
matches. -/
theorem C10_skill_name_lookup (first : StatEntry) (rest : List StatEntry)
    (s n : String) (hn : n = pyCapitalize (pyLower s)) :
    (∀ first2 : StatEntry,
        get_skill_level (HttpResult.response 200 (first2 :: rest)) s =
          get_skill_level (HttpResult.response 200 (first :: rest)) s) ∧
    (∀ s2, pyCapitalize (pyLower s2) = n →
        get_skill_level (HttpResult.response 200 (first :: rest)) s2 =
          get_skill_level (HttpResult.response 200 (first :: rest)) s) ∧
    (get_skill_level (HttpResult.response 200 (first :: rest)) s = none ↔
        ∀ e ∈ rest, ¬ e.stat = n) ∧
    (get_skill_xp (HttpResult.response 200 (first :: rest)) s = none ↔
        ∀ e ∈ rest, ¬ e.stat = n) ∧
    (get_skill_xp_gained (HttpResult.response 200 (first :: rest)) s = none ↔
        ∀ e ∈ rest, ¬ e.stat = n) ∧
    (∀ pre e post, rest = pre ++ e :: post → e.stat = n →
        (∀ x ∈ pre, ¬ x.stat = n) →
        get_skill_level (HttpResult.response 200 (first :: rest)) s = some e.level ∧
        get_skill_xp (HttpResult.response 200 (first :: rest)) s = some e.xp ∧
        get_skill_xp_gained (HttpResult.response 200 (first :: rest)) s =
          some e.xpGained) := by
  subst hn
  refine ⟨?_, ?_, ?_, ?_, ?_, ?_⟩
  · intro first2
    rw [get_skill_level_response, get_skill_level_response]
    rfl
  · intro s2 hs2
    rw [get_skill_level_response, get_skill_level_response, hs2]
  · rw [get_skill_level_response]
    simp [List.find?_eq_none]
  · rw [get_skill_xp_response]
    simp [List.find?_eq_none]
  · rw [get_skill_xp_gained_response]
    simp [List.find?_eq_none]
  · intro pre e post hrest hmatch hpre
    have hfind :
        ((first :: rest).drop 1).find?
            (fun i => i.stat = pyCapitalize (pyLower s)) = some e := by
      simp only [List.drop_one, List.tail_cons, hrest]
      exact find?_first _ pre e post (by simp [hmatch])
        fun x hx => by simp [hpre x hx]
    refine ⟨?_, ?_, ?_⟩
    · rw [get_skill_level_response, hfind]; rfl
    · rw [get_skill_xp_response, hfind]; rfl
    · rw [get_skill_xp_gained_response, hfind]; rfl

/-- Witness for C10: a mixed-case name is normalised and matched against
the entries after the first, returning the first matching level; an
unknown name returns None. -/
theorem C10_witness :
    get_skill_level (HttpResult.response 200
      [{ stat := "Total", level := 90, xp := 0, xpGained := 0 },
       { stat := "Defence", level := 40, xp := 800, xpGained := 8 },
       { stat := "Attack", level := 50, xp := 1000, xpGained := 10 }]) "aTTacK" =
        some 50 ∧
    get_skill_level (HttpResult.response 200
      [{ stat := "Total", level := 90, xp := 0, xpGained := 0 },
       { stat := "Defence", level := 40, xp := 800, xpGained := 8 },
       { stat := "Attack", level := 50, xp := 1000, xpGained := 10 }]) "banana" =
        none := by
  constructor
  · exact ((C10_skill_name_lookup
      { stat := "Total", level := 90, xp := 0, xpGained := 0 }
      [{ stat := "Defence", level := 40, xp := 800, xpGained := 8 },
       { stat := "Attack", level := 50, xp := 1000, xpGained := 10 }]
      "aTTacK" "Attack" (by decide)).2.2.2.2.2
      [{ stat := "Defence", level := 40, xp := 800, xpGained := 8 }]
      { stat := "Attack", level := 50, xp := 1000, xpGained := 10 }
      [] rfl (by decide) (by decide)).1
  · exact (C10_skill_name_lookup
      { stat := "Total", level := 90, xp := 0, xpGained := 0 }
      [{ stat := "Defence", level := 40, xp := 800, xpGained := 8 },
       { stat := "Attack", level := 50, xp := 1000, xpGained := 10 }]
      "banana" "Banana" (by decide)).2.2.1.mpr (by decide)

end OSRSBot
